import Mathlib

/-!
Verification of the `fixmp4` conversion pipeline (`src/fixmp4.py`).

The script walks the subdirectories of a root, and for each directory holding
exactly one video file it remuxes the video through `ffmpeg`, tracking
progress in a JSON state record so interrupted runs can resume.  We embed the
per-directory pipeline `process_dir`, the stream classifier
`get_blocked_streams`, the monitor loop, and the driver `main` as pure Lean
functions over an explicit environment describing everything the script reads
from the outside world (directory listing, parsed state record, probe result,
transcoder exit status, output-file size, digest values).  Each run is
summarised by the list of externally visible file-system events it performs
together with its outcome (normal return, `sys.exit`, or an uncaught
exception).
-/

namespace Fixmp4

/-- `MD5_BLOCKSIZE = 4 * 1024` from the source (digest read granularity). -/
def MD5_BLOCKSIZE : Nat := 4 * 1024

/-- `MONITOR_DELAY = 1.0` from the source: the monitor polls once per second.
We record it in whole seconds. -/
def MONITOR_DELAY : Nat := 1

/-- `STATUS_COMPLETE = "complete"` from the source. -/
def STATUS_COMPLETE : String := "complete"

/-! ## Stream probing (`get_blocked_streams`) -/

/-- One entry of the `streams` array in the ffprobe JSON output.  Either key
may be missing from a stream object, hence the `Option`s. -/
structure MediaStream where
  codec_name : Option String
  index : Option Nat
deriving DecidableEq, Repr

/-- `BLOCKED_CODECS = ["eia_608"]` from the source. -/
def BLOCKED_CODECS : List String := ["eia_608"]

/-- How Python's f-string renders `stream.get('index')`: a number when the
key is present, the text `None` when it is absent. -/
def formatIndex : Option Nat → String
  | some n => toString n
  | none => "None"

/-- The loop body of `get_blocked_streams`: iterate over the probed streams
in order, appending `"0:{index}"` for each stream whose
`stream.get("codec_name", "")` is in `BLOCKED_CODECS`. -/
def get_blocked_streams_of (streams : List MediaStream) : List String :=
  streams.foldl
    (fun out_streams stream =>
      if stream.codec_name.getD "" ∈ BLOCKED_CODECS then
        out_streams ++ ["0:" ++ formatIndex stream.index]
      else out_streams)
    []

/-- Result of running `ffprobe -show_streams -of json <file>`. -/
structure ProbeResult where
  returncode : Int
  streams : List MediaStream
deriving DecidableEq, Repr

/-! ## The persisted JSON state record -/

/-- The `original` section of the state record. -/
structure OrigSection where
  filename : String
  md5 : Option String
  target : Option String
deriving DecidableEq, Repr

/-- The `new` section of the state record. -/
structure NewSection where
  filename : String
  md5 : Option String
  target : Option String
deriving DecidableEq, Repr

/-- The JSON metadata document `<dir>/<basename>.json`; every field is
optional because the record grows as the pipeline advances. -/
structure Record where
  status : Option String
  original : Option OrigSection
  new : Option NewSection
  ffmpeg : Option String
  timestamp : Option Int
  isotimestamp : Option String
deriving DecidableEq, Repr

/-- The empty dict `{}` used when no metadata file is present. -/
def emptyRecord : Record :=
  { status := none, original := none, new := none, ffmpeg := none
    timestamp := none, isotimestamp := none }

/-- Python's `"md5" not in json_metadata.get("original", {})` guard, negated:
true when the loaded record already carries the original file's digest. -/
def origHasMd5 (r : Record) : Bool :=
  match r.original with
  | some o => o.md5.isSome
  | none => false

/-! ## File-system effects and run outcomes -/

/-- Externally visible effects of one `process_dir` run, in program order.
`writeRecord` carries the whole document because `json.dump` rewrites the
file wholesale on every save. -/
inductive Event where
  | writeRecord (r : Record)
  | md5File (name : String)
  | probeFile (name : String)
  | startConversion
  | conversionFinished (exitcode : Int)
  | renameFile (src dst : String)
  | removeFile (name : String)
deriving DecidableEq, Repr

/-- How a call ends: a normal Python return, `sys.exit code`, or an uncaught
exception (such as `os.path.getsize` on a file that was never created). -/
inductive Outcome where
  | done
  | exited (code : Nat)
  | raised (msg : String)
deriving DecidableEq, Repr

/-- Everything `process_dir dirname` observes from the outside world in one
run: the directory basename and listing, the parsed metadata file (if
present), the digests the md5 helper would produce, the generated temporary
output name, the probe result, the transcoder's exit status, the size of the
output file after conversion (`none` when ffmpeg never created it), and the
completion timestamps. -/
structure Env where
  dirbase : String
  metafile : Option Record
  files : List String
  origMd5 : String
  ffmpegVersion : String
  outfilename : String
  probe : ProbeResult
  ffmpegExit : Int
  outSize : Option Nat
  newMd5 : String
  timestamp : Int
  isotimestamp : String
deriving DecidableEq, Repr

/-- The record `json.load` produces, or `{}` when no metadata file exists. -/
def loadedRecord (env : Env) : Record := env.metafile.getD emptyRecord

/-! ## Candidate video selection -/

/-- The extension part of `os.path.splitext name` for a bare filename: the
suffix from the last dot, except that a name whose characters before that dot
are all dots (such as `.mp4`) has no extension. -/
def splitextExt (name : String) : String :=
  let cs := name.toList
  match (List.range cs.length).foldl
      (fun acc i => if cs.get? i = some '.' then some i else acc) none with
  | none => ""
  | some i => if (cs.take i).all (fun c => c = '.') then "" else String.mk (cs.drop i)

/-- Lower-case one character as Python's `str.lower` does on the ASCII
letters (the only characters the compared extensions contain). -/
def asciiLowerChar (c : Char) : Char :=
  if 65 ≤ c.toNat ∧ c.toNat ≤ 90 then Char.ofNat (c.toNat + 32) else c

/-- `str.lower` on the extension string. -/
def asciiLower (s : String) : String := String.mk (s.toList.map asciiLowerChar)

/-- `[x for x in files if os.path.splitext(x)[1].lower() in [".m4v", ".mp4"]]`. -/
def videosOf (files : List String) : List String :=
  files.filter (fun x => asciiLower (splitextExt x) ∈ [".m4v", ".mp4"])

/-! ## The per-directory pipeline -/

/-- `process_dir` from the source, as a function from the observed
environment to the ordered list of file-system events performed and the way
the call ends.  The steps mirror the source: load the record and return if
`status == "complete"`; return if the directory holds zero or several
candidate videos; compute and store the original md5 only when the record
lacks it; write the record; probe the original (exiting with code 1 when
ffprobe fails); stamp the ffmpeg version; run the conversion under the
monitor; check the output size (`os.path.getsize` raises when the file does
not exist; size 0 removes the file and exits with code 1); store the `new`
section and write the record; digest the output; perform both renames; stamp
completion status plus timestamps and write the record a final time. -/
def process_dir (env : Env) : List Event × Outcome :=
  let json_metadata : Record := (loadedRecord env)
  if json_metadata.status.getD "" = STATUS_COMPLETE then
    ([], .done)
  else
    match videosOf env.files with
    | [] => ([], .done)
    | _ :: _ :: _ => ([], .done)
    | [video] =>
      let step1 : List Event × Record :=
        if origHasMd5 json_metadata then ([], json_metadata)
        else
          ([.md5File video],
           { json_metadata with
             original := some { filename := video, md5 := some env.origMd5, target := none } })
      let ev1 := step1.1
      let json_metadata := step1.2
      let outfilename := env.outfilename
      if env.probe.returncode ≠ 0 then
        (ev1 ++ [.writeRecord json_metadata, .probeFile video], .exited 1)
      else
        let evConv : List Event :=
          [.writeRecord json_metadata, .probeFile video, .startConversion,
           .conversionFinished env.ffmpegExit]
        let json_metadata := { json_metadata with ffmpeg := some env.ffmpegVersion }
        match env.outSize with
        | none => (ev1 ++ evConv, .raised "FileNotFoundError")
        | some filesize =>
          if filesize = 0 then
            (ev1 ++ evConv ++ [.removeFile outfilename], .exited 1)
          else
            let json_metadata := { json_metadata with
              new := some { filename := outfilename, md5 := none, target := none } }
            let rec2 := json_metadata
            let json_metadata := { json_metadata with
              new := some { filename := outfilename, md5 := some env.newMd5, target := none } }
            let original_moved := video ++ ".orig"
            let json_metadata := { json_metadata with
              original := json_metadata.original.map
                (fun (o : OrigSection) => { o with target := some original_moved }) }
            let new_moved := env.dirbase ++ ".mp4"
            let json_metadata := { json_metadata with
              new := some { filename := outfilename, md5 := some env.newMd5,
                            target := some new_moved } }
            let json_metadata := { json_metadata with
              status := some STATUS_COMPLETE,
              timestamp := some env.timestamp,
              isotimestamp := some env.isotimestamp }
            (ev1 ++ evConv
               ++ [.writeRecord rec2, .md5File outfilename,
                   .renameFile video original_moved,
                   .renameFile outfilename new_moved,
                   .writeRecord json_metadata],
             .done)

/-! ## The monitor loop

While ffmpeg runs, the parent sits in `while True: p.join(MONITOR_DELAY); ...`.
Each iteration observes whether the output file exists (and its size) and
whether the child's exit code has become available.  We model the run as the
finite sequence of such observations. -/

/-- What one iteration of the monitor loop observes after `p.join(1.0)`:
the child's exit code if it has exited, and the output file's size if the
file exists. -/
structure Poll where
  exitcode : Option Int
  fileSize : Option Nat
deriving DecidableEq, Repr

/-- The monitor loop over a schedule of observations, carrying
`old_filesize`.  Returns the progress increments reported (one
`filesize - old_filesize` per poll at which the file exists) and the exit
code it terminated on (`none` when the schedule ran out before the child
exited, i.e. the loop is still running). -/
def monitor : List Poll → Nat → List Int × Option Int
  | [], _ => ([], none)
  | p :: rest, old_filesize =>
    match p.fileSize with
    | some filesize =>
      let report := (filesize : Int) - (old_filesize : Int)
      match p.exitcode with
      | some c => ([report], some c)
      | none =>
        let r := monitor rest filesize
        (report :: r.1, r.2)
    | none =>
      match p.exitcode with
      | some c => ([], some c)
      | none => monitor rest old_filesize

/-! ## The driver `main` -/

/-- What `main` observes: whether the root path is a directory, and the
per-subdirectory environments, already in the sorted order `main` visits
them. -/
structure MainEnv where
  isDir : Bool
  items : List Env
deriving DecidableEq, Repr

/-- The `for this_dir in ...: process_dir(this_dir)` loop: sequential, and a
`sys.exit` or uncaught exception in one item aborts the whole loop. -/
def runItems : List Env → Outcome
  | [] => .done
  | e :: rest =>
    match (process_dir e).2 with
    | .done => runItems rest
    | o => o

/-- The process exit code of one invocation: `main` exits with 1 when the
root is not a directory; a `sys.exit c` anywhere gives exit code `c`; an
uncaught exception makes the interpreter exit with code 1; otherwise the
script falls off the end of `main` and exits 0. -/
def mainExitCode (m : MainEnv) : Nat :=
  if m.isDir = false then 1
  else
    match runItems m.items with
    | .done => 0
    | .exited c => c
    | .raised _ => 1

/-! ## Derived descriptions of a run's trace -/

/-- The digest events of the original file: none when the loaded record
already has `original.md5`, otherwise one md5 pass over the video. -/
def digestEvents (env : Env) (video : String) : List Event :=
  if origHasMd5 (loadedRecord env) then [] else [.md5File video]

/-- The in-memory record after the original-digest step (what the first
`json.dump` writes). -/
def recordAfterDigest (env : Env) (video : String) : Record :=
  if origHasMd5 (loadedRecord env) then loadedRecord env
  else { loadedRecord env with
         original := some { filename := video, md5 := some env.origMd5, target := none } }

/-- The record the second `json.dump` writes: ffmpeg version stamped and a
fresh `new` section holding only the temporary output filename. -/
def recordAfterConversion (env : Env) (video : String) : Record :=
  { recordAfterDigest env video with
    ffmpeg := some env.ffmpegVersion,
    new := some { filename := env.outfilename, md5 := none, target := none } }

/-- The record the final `json.dump` writes: status complete, both digests,
both rename targets, ffmpeg version and timestamps. -/
def finalRecord (env : Env) (video : String) : Record :=
  { status := some STATUS_COMPLETE,
    original := (recordAfterDigest env video).original.map
      (fun (o : OrigSection) => { o with target := some (video ++ ".orig") }),
    new := some { filename := env.outfilename, md5 := some env.newMd5,
                  target := some (env.dirbase ++ ".mp4") },
    ffmpeg := some env.ffmpegVersion,
    timestamp := some env.timestamp,
    isotimestamp := some env.isotimestamp }

/-! ## Event classifiers -/

/-- Is this event a state-record write? -/
def isWriteEvent : Event → Bool
  | .writeRecord _ => true
  | _ => false

/-- Is this event the start of the conversion process? -/
def isStartConv : Event → Bool
  | .startConversion => true
  | _ => false

/-- Is this event the end of the conversion process? -/
def isConvFinish : Event → Bool
  | .conversionFinished _ => true
  | _ => false

/-- The number of state-record writes a trace performs strictly between the
start of the conversion and its end. -/
def writesBetweenStartAndFinish (tr : List Event) : Nat :=
  ((((tr.dropWhile (fun e => !isStartConv e)).drop 1).takeWhile
      (fun e => !isConvFinish e)).filter isWriteEvent).length

/-! ## Concrete sample environments -/

/-- A directory `movie/` holding one video `clip.mp4` and a cover image,
no metadata file yet, a clean probe, and a healthy 1000-byte output. -/
def freshEnv : Env :=
  { dirbase := "movie"
    metafile := none
    files := ["clip.mp4", "cover.jpg"]
    origMd5 := "aaa111"
    ffmpegVersion := "ffmpeg version 4.4"
    outfilename := "tmpabc123.mp4"
    probe := { returncode := 0, streams := [] }
    ffmpegExit := 0
    outSize := some 1000
    newMd5 := "bbb222"
    timestamp := 1700000000
    isotimestamp := "2023-11-14T22:13:20+00:00" }

/-- Same directory, but ffmpeg exits with status 1 while still producing a
non-empty output file. -/
def envBadExit : Env := { freshEnv with ffmpegExit := 1 }

/-- Same directory, but ffmpeg never creates the output file. -/
def envNoOutput : Env := { freshEnv with outSize := none }

/-- Same directory, but the conversion leaves a zero-byte output file. -/
def envZeroOutput : Env := { freshEnv with outSize := some 0 }

/-- A record left by an interrupted earlier run: original digest stored, no
`new` section, no status. -/
def resumeRecord : Record :=
  { status := none
    original := some { filename := "clip.mp4", md5 := some "aaa111", target := none }
    new := none
    ffmpeg := none
    timestamp := none
    isotimestamp := none }

/-- The sample directory as seen by a resumed run. -/
def envResume : Env := { freshEnv with metafile := some resumeRecord }

/-- A record stamped complete by an earlier run. -/
def completeRecord : Record :=
  { status := some STATUS_COMPLETE
    original := some { filename := "clip.mp4", md5 := some "aaa111", target := some "clip.mp4.orig" }
    new := some { filename := "tmpabc123.mp4", md5 := some "bbb222", target := some "movie.mp4" }
    ffmpeg := some "ffmpeg version 4.4"
    timestamp := some 1700000000
    isotimestamp := some "2023-11-14T22:13:20+00:00" }

/-- The sample directory as seen once its record says complete. -/
def envComplete : Env := { freshEnv with metafile := some completeRecord }

/-- The sample directory with a second candidate video next to the first. -/
def envTwoVideos : Env := { freshEnv with files := ["clip.mp4", "Other.M4V", "cover.jpg"] }

/-! ## Characterization of `process_dir`, one lemma per control path -/

/-- Path 1: a record already marked complete short-circuits the run. -/
theorem pd_complete (env : Env)
    (h : (loadedRecord env).status.getD "" = STATUS_COMPLETE) :
    process_dir env = ([], Outcome.done) := by
  simp [process_dir, h]

/-- Path 2: no candidate video. -/
theorem pd_novideo (env : Env)
    (h : ¬ (loadedRecord env).status.getD "" = STATUS_COMPLETE)
    (hv : videosOf env.files = []) :
    process_dir env = ([], Outcome.done) := by
  simp only [process_dir, hv]
  simp [h]

/-- Path 3: several candidate videos. -/
theorem pd_multivideo (env : Env)
    (h : ¬ (loadedRecord env).status.getD "" = STATUS_COMPLETE)
    (v w : String) (rest : List String)
    (hv : videosOf env.files = v :: w :: rest) :
    process_dir env = ([], Outcome.done) := by
  simp only [process_dir, hv]
  simp [h]

/-- Path 4: ffprobe fails, `sys.exit(1)` after the first record write. -/
theorem pd_probe_fail (env : Env) (video : String)
    (h : ¬ (loadedRecord env).status.getD "" = STATUS_COMPLETE)
    (hv : videosOf env.files = [video])
    (hp : env.probe.returncode ≠ 0) :
    process_dir env =
      (digestEvents env video
         ++ [Event.writeRecord (recordAfterDigest env video), Event.probeFile video],
       Outcome.exited 1) := by
  by_cases hmd : origHasMd5 (loadedRecord env) <;>
    simp [process_dir, hv, h, hp, hmd, digestEvents, recordAfterDigest]

/-- Path 5: ffmpeg never creates the output file, so the size check raises
`FileNotFoundError`. -/
theorem pd_no_output (env : Env) (video : String)
    (h : ¬ (loadedRecord env).status.getD "" = STATUS_COMPLETE)
    (hv : videosOf env.files = [video])
    (hp : env.probe.returncode = 0)
    (hs : env.outSize = none) :
    process_dir env =
      (digestEvents env video
         ++ [Event.writeRecord (recordAfterDigest env video), Event.probeFile video,
             Event.startConversion, Event.conversionFinished env.ffmpegExit],
       Outcome.raised "FileNotFoundError") := by
  by_cases hmd : origHasMd5 (loadedRecord env) <;>
    simp [process_dir, hv, h, hp, hs, hmd, digestEvents, recordAfterDigest]

/-- Path 6: the output file exists but is empty: it is removed and the run
exits with code 1. -/
theorem pd_zero_output (env : Env) (video : String)
    (h : ¬ (loadedRecord env).status.getD "" = STATUS_COMPLETE)
    (hv : videosOf env.files = [video])
    (hp : env.probe.returncode = 0)
    (hs : env.outSize = some 0) :
    process_dir env =
      (digestEvents env video
         ++ [Event.writeRecord (recordAfterDigest env video), Event.probeFile video,
             Event.startConversion, Event.conversionFinished env.ffmpegExit,
             Event.removeFile env.outfilename],
       Outcome.exited 1) := by
  by_cases hmd : origHasMd5 (loadedRecord env) <;>
    simp [process_dir, hv, h, hp, hs, hmd, digestEvents, recordAfterDigest]

/-- Path 7: the full success path, for any transcoder exit status. -/
theorem pd_success (env : Env) (video : String) (sz : Nat)
    (h : ¬ (loadedRecord env).status.getD "" = STATUS_COMPLETE)
    (hv : videosOf env.files = [video])
    (hp : env.probe.returncode = 0)
    (hs : env.outSize = some sz) (hsz : sz ≠ 0) :
    process_dir env =
      (digestEvents env video
         ++ [Event.writeRecord (recordAfterDigest env video), Event.probeFile video,
             Event.startConversion, Event.conversionFinished env.ffmpegExit,
             Event.writeRecord (recordAfterConversion env video),
             Event.md5File env.outfilename,
             Event.renameFile video (video ++ ".orig"),
             Event.renameFile env.outfilename (env.dirbase ++ ".mp4"),
             Event.writeRecord (finalRecord env video)],
       Outcome.done) := by
  by_cases hmd : origHasMd5 (loadedRecord env) <;>
    simp [process_dir, hv, h, hp, hs, hsz, hmd, digestEvents, recordAfterDigest,
          recordAfterConversion, finalRecord]

/-! ## Small helper lemmas -/

/-- The digest step never changes the `status` field. -/
theorem recordAfterDigest_status (env : Env) (video : String) :
    (recordAfterDigest env video).status = (loadedRecord env).status := by
  by_cases hmd : origHasMd5 (loadedRecord env) <;> simp [recordAfterDigest, hmd]

/-- The digest step performs no record write. -/
theorem writeRecord_not_in_digestEvents (env : Env) (video : String) (r : Record) :
    Event.writeRecord r ∉ digestEvents env video := by
  by_cases hmd : origHasMd5 (loadedRecord env) <;> simp [digestEvents, hmd]

/-- The digest step performs no file removal. -/
theorem removeFile_not_in_digestEvents (env : Env) (video : String) (f : String) :
    Event.removeFile f ∉ digestEvents env video := by
  by_cases hmd : origHasMd5 (loadedRecord env) <;> simp [digestEvents, hmd]

/-- Whenever `process_dir` calls `sys.exit`, the code is 1. -/
theorem process_dir_exit_code (env : Env) (c : Nat)
    (h : (process_dir env).2 = Outcome.exited c) : c = 1 := by
  by_cases h1 : (loadedRecord env).status.getD "" = STATUS_COMPLETE
  · rw [pd_complete env h1] at h; simp at h
  · rcases hv : videosOf env.files with _ | ⟨v, _ | ⟨w, rest⟩⟩
    · rw [pd_novideo env h1 hv] at h; simp at h
    · by_cases hp : env.probe.returncode = 0
      · rcases hs : env.outSize with _ | sz
        · rw [pd_no_output env v h1 hv hp hs] at h; simp at h
        · by_cases hsz : sz = 0
          · subst hsz
            rw [pd_zero_output env v h1 hv hp hs] at h
            simp at h; omega
          · rw [pd_success env v sz h1 hv hp hs hsz] at h; simp at h
      · rw [pd_probe_fail env v h1 hv hp] at h
        simp at h; omega
    · rw [pd_multivideo env h1 v w rest hv] at h; simp at h

/-- A `sys.exit` from `runItems` always carries code 1. -/
theorem runItems_exit_code (items : List Env) (c : Nat)
    (h : runItems items = Outcome.exited c) : c = 1 := by
  induction items with
  | nil => simp [runItems] at h
  | cons e rest ih =>
    rw [runItems] at h
    rcases he : (process_dir e).2 with _ | c' | m <;> rw [he] at h
    · exact ih h
    · cases h
      exact process_dir_exit_code e c he
    · cases h

/-- The foldl of `get_blocked_streams` is a filter-then-map over the probed
streams, in probe order, for any starting accumulator. -/
theorem blocked_foldl_eq (streams : List MediaStream) (acc : List String) :
    streams.foldl
      (fun out_streams stream =>
        if stream.codec_name.getD "" ∈ BLOCKED_CODECS then
          out_streams ++ ["0:" ++ formatIndex stream.index]
        else out_streams)
      acc =
    acc ++ (streams.filter
        (fun s => decide (s.codec_name.getD "" ∈ BLOCKED_CODECS))).map
      (fun s => "0:" ++ formatIndex s.index) := by
  induction streams generalizing acc with
  | nil => simp
  | cons s tl ih =>
    by_cases hc : s.codec_name.getD "" ∈ BLOCKED_CODECS <;>
      simp [List.filter_cons, hc, ih]

/-- The monitor loop's final state is `some` exit code exactly when some poll
in the schedule observes that the child has exited. -/
theorem monitor_isSome (polls : List Poll) (old_filesize : Nat) :
    (monitor polls old_filesize).2.isSome
      = polls.any (fun p => p.exitcode.isSome) := by
  induction polls generalizing old_filesize with
  | nil => simp [monitor]
  | cons p tl ih =>
    rcases hf : p.fileSize with _ | sz <;> rcases he : p.exitcode with _ | c <;>
      simp [monitor, hf, he, ih]

/-! ## Claims -/

/-- C1, counterexample: in the sample directory the transcoder exits with
status 1 yet produces a 1000-byte output; `process_dir` ends normally and
its final record write stamps `status=complete`, so a non-zero exit is not
reported as a conversion failure and the record is stamped complete even
though the conversion did not succeed. -/
theorem nonzero_exit_still_stamps_complete :
    envBadExit.ffmpegExit = 1 ∧
    (process_dir envBadExit).2 = Outcome.done ∧
    Event.writeRecord (finalRecord envBadExit "clip.mp4") ∈ (process_dir envBadExit).1 ∧
    (finalRecord envBadExit "clip.mp4").status = some STATUS_COMPLETE := by
  refine ⟨rfl, by decide, by decide, rfl⟩

/-- C1, amended: the transcoder's exit status is never consulted.  Whatever
exit status `e` the child returned, a run whose output file is non-empty
proceeds through the output digest and both renames and stamps
`status=complete` in its final record write; completion requires the
original digest, a non-empty output, the output digest and the renames, but
not a zero exit status. -/
theorem complete_stamp_ignores_exit_status (env : Env) (video : String) (sz : Nat) (e : Int)
    (h : ¬ (loadedRecord env).status.getD "" = STATUS_COMPLETE)
    (hv : videosOf env.files = [video])
    (hp : env.probe.returncode = 0)
    (hs : env.outSize = some sz) (hsz : sz ≠ 0) :
    process_dir { env with ffmpegExit := e } =
      (digestEvents env video
         ++ [Event.writeRecord (recordAfterDigest env video), Event.probeFile video,
             Event.startConversion, Event.conversionFinished e,
             Event.writeRecord (recordAfterConversion env video),
             Event.md5File env.outfilename,
             Event.renameFile video (video ++ ".orig"),
             Event.renameFile env.outfilename (env.dirbase ++ ".mp4"),
             Event.writeRecord (finalRecord env video)],
       Outcome.done) ∧
    (finalRecord env video).status = some STATUS_COMPLETE := by
  constructor
  · exact pd_success { env with ffmpegExit := e } video sz h hv hp hs hsz
  · rfl

/-- Witness for C1's amended theorem at the sample directory with exit
status 1. -/
theorem complete_stamp_ignores_exit_status_witness :
    videosOf freshEnv.files = ["clip.mp4"] ∧
    freshEnv.probe.returncode = 0 ∧
    (1000 : Nat) ≠ 0 ∧
    process_dir envBadExit =
      (digestEvents freshEnv "clip.mp4"
         ++ [Event.writeRecord (recordAfterDigest freshEnv "clip.mp4"),
             Event.probeFile "clip.mp4",
             Event.startConversion, Event.conversionFinished 1,
             Event.writeRecord (recordAfterConversion freshEnv "clip.mp4"),
             Event.md5File freshEnv.outfilename,
             Event.renameFile "clip.mp4" ("clip.mp4" ++ ".orig"),
             Event.renameFile freshEnv.outfilename (freshEnv.dirbase ++ ".mp4"),
             Event.writeRecord (finalRecord freshEnv "clip.mp4")],
       Outcome.done) ∧
    (finalRecord freshEnv "clip.mp4").status = some STATUS_COMPLETE :=
  ⟨by decide, rfl, by decide,
   (complete_stamp_ignores_exit_status freshEnv "clip.mp4" 1000 1 (by decide) (by decide)
      rfl rfl (by decide)).1,
   (complete_stamp_ignores_exit_status freshEnv "clip.mp4" 1000 1 (by decide) (by decide)
      rfl rfl (by decide)).2⟩

/-- C2: a zero-byte conversion output is removed, the run ends in
`sys.exit(1)` (so the remaining items are never processed and the process
exit code is 1), and no record written during the item carries
`status=complete`. -/
theorem zero_output_fatal (env : Env) (video : String)
    (h : ¬ (loadedRecord env).status.getD "" = STATUS_COMPLETE)
    (hv : videosOf env.files = [video])
    (hp : env.probe.returncode = 0)
    (hs : env.outSize = some 0) :
    (process_dir env).2 = Outcome.exited 1 ∧
    Event.removeFile env.outfilename ∈ (process_dir env).1 ∧
    (∀ r : Record, Event.writeRecord r ∈ (process_dir env).1 →
       ¬ r.status.getD "" = STATUS_COMPLETE) ∧
    (∀ rest : List Env, runItems (env :: rest) = Outcome.exited 1 ∧
       mainExitCode { isDir := true, items := env :: rest } = 1) := by
  have hz := pd_zero_output env video h hv hp hs
  have he : (process_dir env).2 = Outcome.exited 1 := by rw [hz]
  refine ⟨he, by rw [hz]; simp, ?_, ?_⟩
  · intro r hr
    rw [hz] at hr
    simp [writeRecord_not_in_digestEvents] at hr
    subst hr
    rw [recordAfterDigest_status]
    exact h
  · intro rest
    constructor
    · simp [runItems, he]
    · simp [mainExitCode, runItems, he]

/-- Witness for C2 at the sample directory with a zero-byte output. -/
theorem zero_output_fatal_witness :
    ¬ (loadedRecord envZeroOutput).status.getD "" = STATUS_COMPLETE ∧
    videosOf envZeroOutput.files = ["clip.mp4"] ∧
    envZeroOutput.outSize = some 0 ∧
    (process_dir envZeroOutput).2 = Outcome.exited 1 ∧
    Event.removeFile envZeroOutput.outfilename ∈ (process_dir envZeroOutput).1 ∧
    runItems [envZeroOutput] = Outcome.exited 1 ∧
    mainExitCode { isDir := true, items := [envZeroOutput] } = 1 :=
  ⟨by decide, by decide, rfl,
   (zero_output_fatal envZeroOutput "clip.mp4" (by decide) (by decide) rfl rfl).1,
   (zero_output_fatal envZeroOutput "clip.mp4" (by decide) (by decide) rfl rfl).2.1,
   ((zero_output_fatal envZeroOutput "clip.mp4" (by decide) (by decide) rfl rfl).2.2.2 []).1,
   ((zero_output_fatal envZeroOutput "clip.mp4" (by decide) (by decide) rfl rfl).2.2.2 []).2⟩

/-- C3: an item whose record is already `status=complete` is skipped
entirely: the run performs no file-system event at all (no write, rename,
removal, or digest pass) and returns normally. -/
theorem complete_item_is_noop (env : Env) (r : Record)
    (hm : env.metafile = some r) (hc : r.status = some STATUS_COMPLETE) :
    process_dir env = ([], Outcome.done) := by
  apply pd_complete
  simp [loadedRecord, hm, hc]

/-- Witness for C3 at the sample directory with a complete record. -/
theorem complete_item_is_noop_witness :
    envComplete.metafile = some completeRecord ∧
    completeRecord.status = some STATUS_COMPLETE ∧
    process_dir envComplete = ([], Outcome.done) :=
  ⟨rfl, rfl, complete_item_is_noop envComplete completeRecord rfl rfl⟩

/-- C4: when the loaded record already holds `original.md5` and has no `new`
section, a resumed run never digests the original video again, yet still
starts the conversion. -/
theorem resume_skips_original_digest (env : Env) (r : Record) (video : String)
    (hm : env.metafile = some r)
    (hmd5 : origHasMd5 r = true)
    (_hnew : r.new = none)
    (hns : ¬ r.status.getD "" = STATUS_COMPLETE)
    (hv : videosOf env.files = [video])
    (hp : env.probe.returncode = 0)
    (hneq : env.outfilename ≠ video) :
    Event.md5File video ∉ (process_dir env).1 ∧
    Event.startConversion ∈ (process_dir env).1 := by
  have hl : loadedRecord env = r := by simp [loadedRecord, hm]
  have hns' : ¬ (loadedRecord env).status.getD "" = STATUS_COMPLETE := by
    rw [hl]; exact hns
  have hmd : origHasMd5 (loadedRecord env) = true := by rw [hl]; exact hmd5
  have hde : digestEvents env video = [] := by simp [digestEvents, hmd]
  have hneq' : video ≠ env.outfilename := fun hh => hneq hh.symm
  rcases hs : env.outSize with _ | sz
  · rw [pd_no_output env video hns' hv hp hs]
    simp [hde]
  · by_cases hsz : sz = 0
    · subst hsz
      rw [pd_zero_output env video hns' hv hp hs]
      simp [hde]
    · rw [pd_success env video sz hns' hv hp hs hsz]
      simp [hde, hneq']

/-- Witness for C4 at the sample directory with a resume record. -/
theorem resume_skips_original_digest_witness :
    envResume.metafile = some resumeRecord ∧
    origHasMd5 resumeRecord = true ∧
    resumeRecord.new = none ∧
    videosOf envResume.files = ["clip.mp4"] ∧
    Event.md5File "clip.mp4" ∉ (process_dir envResume).1 ∧
    Event.startConversion ∈ (process_dir envResume).1 :=
  ⟨rfl, by decide, rfl, by decide,
   (resume_skips_original_digest envResume resumeRecord "clip.mp4" rfl (by decide) rfl
      (by decide) (by decide) rfl (by decide)).1,
   (resume_skips_original_digest envResume resumeRecord "clip.mp4" rfl (by decide) rfl
      (by decide) (by decide) rfl (by decide)).2⟩

/-- C5, counterexample: a full successful run on the sample directory writes
the state record three times, not four: no write occurs between the start of
the conversion and its end, so the milestone "conversion started" is never
separately persisted. -/
theorem no_write_between_start_and_finish :
    Event.startConversion ∈ (process_dir freshEnv).1 ∧
    Event.conversionFinished freshEnv.ffmpegExit ∈ (process_dir freshEnv).1 ∧
    writesBetweenStartAndFinish (process_dir freshEnv).1 = 0 ∧
    ((process_dir freshEnv).1.filter isWriteEvent).length = 3 := by
  refine ⟨by decide, by decide, by decide, by decide⟩

/-- C5, amended: a successful run writes the record wholesale exactly three
times — after the original digest step, after the conversion has finished,
and after the renames and completion stamp — and performs no write between
the start of the conversion and its end. -/
theorem record_writes_at_three_milestones (env : Env) (video : String) (sz : Nat)
    (h : ¬ (loadedRecord env).status.getD "" = STATUS_COMPLETE)
    (hv : videosOf env.files = [video])
    (hp : env.probe.returncode = 0)
    (hs : env.outSize = some sz) (hsz : sz ≠ 0) :
    (process_dir env).1.filter isWriteEvent =
      [Event.writeRecord (recordAfterDigest env video),
       Event.writeRecord (recordAfterConversion env video),
       Event.writeRecord (finalRecord env video)] ∧
    writesBetweenStartAndFinish (process_dir env).1 = 0 := by
  rw [pd_success env video sz h hv hp hs hsz]
  by_cases hmd : origHasMd5 (loadedRecord env) <;>
    simp [digestEvents, hmd, writesBetweenStartAndFinish, isWriteEvent, isStartConv,
          isConvFinish, List.filter, List.dropWhile, List.takeWhile]

/-- Witness for C5's amended theorem at the sample directory. -/
theorem record_writes_at_three_milestones_witness :
    videosOf freshEnv.files = ["clip.mp4"] ∧
    freshEnv.outSize = some 1000 ∧
    (process_dir freshEnv).1.filter isWriteEvent =
      [Event.writeRecord (recordAfterDigest freshEnv "clip.mp4"),
       Event.writeRecord (recordAfterConversion freshEnv "clip.mp4"),
       Event.writeRecord (finalRecord freshEnv "clip.mp4")] ∧
    writesBetweenStartAndFinish (process_dir freshEnv).1 = 0 :=
  ⟨by decide, rfl,
   (record_writes_at_three_milestones freshEnv "clip.mp4" 1000 (by decide) (by decide)
      rfl rfl (by decide)).1,
   (record_writes_at_three_milestones freshEnv "clip.mp4" 1000 (by decide) (by decide)
      rfl rfl (by decide)).2⟩

/-- C6, counterexample: the root is a directory, the probe succeeds and the
conversion output is not a zero-byte file (ffmpeg simply never created it),
yet the process exits with code 1 — the size check raises an uncaught
exception — so exit code 1 is not limited to the three listed conditions. -/
theorem missing_output_file_exits_one :
    mainExitCode { isDir := true, items := [envNoOutput] } = 1 ∧
    envNoOutput.probe.returncode = 0 ∧
    ¬ envNoOutput.outSize = some 0 := by
  refine ⟨by decide, rfl, by decide⟩

/-- C6, amended: the process exit code is always 0 or 1; it is 0 exactly
when the root is a directory and every item either completes or is skipped
without a fatal condition (probe failure, zero-byte output) or an unhandled
error such as a missing output file; a non-directory root always exits 1. -/
theorem exit_code_characterization (m : MainEnv) :
    (mainExitCode m = 0 ∨ mainExitCode m = 1) ∧
    (mainExitCode m = 0 ↔ m.isDir = true ∧ runItems m.items = Outcome.done) ∧
    (m.isDir = false → mainExitCode m = 1) := by
  rcases m with ⟨isd, items⟩
  cases isd with
  | false => simp [mainExitCode]
  | true =>
    rcases hr : runItems items with _ | c | msg
    · simp [mainExitCode, hr]
    · have hc := runItems_exit_code items c hr
      subst hc
      simp [mainExitCode, hr]
    · simp [mainExitCode, hr]

/-- C7: with a record not yet complete, a directory holding zero candidate
videos, or more than one, is skipped with no file-system event at all; and
candidate matching recognizes the container extensions case-insensitively. -/
theorem ambiguous_candidates_skip (env : Env)
    (hns : ¬ (loadedRecord env).status.getD "" = STATUS_COMPLETE)
    (hv : videosOf env.files = [] ∨ 1 < (videosOf env.files).length) :
    process_dir env = ([], Outcome.done) ∧
    videosOf ["Clip.MP4", "extra.M4v", "notes.txt", "other.mkv"]
      = ["Clip.MP4", "extra.M4v"] := by
  constructor
  · rcases hv with hv | hv
    · exact pd_novideo env hns hv
    · rcases hlst : videosOf env.files with _ | ⟨v, _ | ⟨w, rest⟩⟩
      · rw [hlst] at hv; simp at hv
      · rw [hlst] at hv; simp at hv
      · exact pd_multivideo env hns v w rest hlst
  · decide

/-- Witness for C7 at the sample directory holding two candidate videos. -/
theorem ambiguous_candidates_skip_witness :
    ¬ (loadedRecord envTwoVideos).status.getD "" = STATUS_COMPLETE ∧
    1 < (videosOf envTwoVideos.files).length ∧
    process_dir envTwoVideos = ([], Outcome.done) :=
  ⟨by decide, by decide,
   (ambiguous_candidates_skip envTwoVideos (by decide) (Or.inr (by decide))).1⟩

/-- C8: a stream is blocked exactly when its `codec_name` lies in the fixed
set `BLOCKED_CODECS = ["eia_608"]`; each blocked stream contributes the
selector `"0:<index>"`, in probe order, and a blocked stream at container
index 3 yields exactly `"0:3"`. -/
theorem blocked_stream_selectors (streams : List MediaStream) :
    get_blocked_streams_of streams =
      (streams.filter
          (fun s => decide (s.codec_name.getD "" ∈ BLOCKED_CODECS))).map
        (fun s => "0:" ++ formatIndex s.index) ∧
    BLOCKED_CODECS = ["eia_608"] ∧
    formatIndex (some 3) = "3" ∧
    get_blocked_streams_of
      [{ codec_name := some "h264", index := some 0 },
       { codec_name := some "aac", index := some 1 },
       { codec_name := some "eia_608", index := some 3 }] = ["0:3"] := by
  refine ⟨?_, rfl, by decide, by decide⟩
  simpa using blocked_foldl_eq streams []

/-- C9: the monitor sleeps in fixed `MONITOR_DELAY = 1` second steps; at a
poll where the output file exists it reports exactly
`current size - last observed size`; a poll where the file is absent and the
child still runs changes nothing; and the loop holds an exit code at the end
exactly when some poll observed the child's exit — never because of any file
size. -/
theorem monitor_protocol (polls : List Poll) (old_filesize : Nat) :
    ((monitor polls old_filesize).2.isSome
       = polls.any (fun p => p.exitcode.isSome)) ∧
    (∀ p : Poll, ∀ rest : List Poll, ∀ sz : Nat, p.fileSize = some sz →
        (monitor (p :: rest) old_filesize).1.head?
          = some ((sz : Int) - (old_filesize : Int))) ∧
    (∀ p : Poll, ∀ rest : List Poll, p.fileSize = none → p.exitcode = none →
        monitor (p :: rest) old_filesize = monitor rest old_filesize) ∧
    MONITOR_DELAY = 1 := by
  refine ⟨monitor_isSome polls old_filesize, ?_, ?_, rfl⟩
  · intro p rest sz hf
    rcases he : p.exitcode with _ | c <;> simp [monitor, hf, he]
  · intro p rest hf he
    simp [monitor, hf, he]

/-- C10: the only file `process_dir` ever removes is the current run's own
freshly generated output file, and only when that output is zero bytes (the
run then exiting with code 1); no other file — in particular no stale
temporary output of an interrupted earlier run — is ever deleted. -/
theorem remove_only_zero_byte_output (env : Env) (f : String)
    (h : Event.removeFile f ∈ (process_dir env).1) :
    f = env.outfilename ∧ env.outSize = some 0 ∧
    (process_dir env).2 = Outcome.exited 1 := by
  by_cases h1 : (loadedRecord env).status.getD "" = STATUS_COMPLETE
  · rw [pd_complete env h1] at h; simp at h
  · rcases hv : videosOf env.files with _ | ⟨v, _ | ⟨w, rest⟩⟩
    · rw [pd_novideo env h1 hv] at h; simp at h
    · by_cases hp : env.probe.returncode = 0
      · rcases hs : env.outSize with _ | sz
        · rw [pd_no_output env v h1 hv hp hs] at h
          simp [removeFile_not_in_digestEvents] at h
        · by_cases hsz : sz = 0
          · subst hsz
            rw [pd_zero_output env v h1 hv hp hs] at h
            simp [removeFile_not_in_digestEvents] at h
            exact ⟨h, rfl, by rw [pd_zero_output env v h1 hv hp hs]⟩
          · rw [pd_success env v sz h1 hv hp hs hsz] at h
            simp [removeFile_not_in_digestEvents] at h
      · rw [pd_probe_fail env v h1 hv hp] at h
        simp [removeFile_not_in_digestEvents] at h
    · rw [pd_multivideo env h1 v w rest hv] at h; simp at h

/-- Witness for C10 at the sample directory with a zero-byte output. -/
theorem remove_only_zero_byte_output_witness :
    Event.removeFile "tmpabc123.mp4" ∈ (process_dir envZeroOutput).1 ∧
    "tmpabc123.mp4" = envZeroOutput.outfilename ∧
    envZeroOutput.outSize = some 0 ∧
    (process_dir envZeroOutput).2 = Outcome.exited 1 :=
  ⟨by decide,
   (remove_only_zero_byte_output envZeroOutput "tmpabc123.mp4" (by decide)).1,
   (remove_only_zero_byte_output envZeroOutput "tmpabc123.mp4" (by decide)).2.1,
   (remove_only_zero_byte_output envZeroOutput "tmpabc123.mp4" (by decide)).2.2⟩

end Fixmp4
